import Mathlib

/-!
Shallow embedding of the ESP32 home-hub AI orchestrator core
(`src/apps/ai/src`: decision engine, telemetry/command models, MQTT
handlers; `src/device/lib/home_hub.py`: device-side command decoding).

Python numbers are modelled as exact rationals (`ℚ`); Python `None` is the
`Val.null` constructor; fallible paths (a Python exception escaping the
modelled function) are `Option`-valued results.  Mutable dictionaries are
modelled as association lists with Python-dict update semantics (update in
place when the key exists, append otherwise), which preserves key order and
key uniqueness exactly as CPython dicts do.
-/

namespace HomeHub

/-- A Python runtime value as far as this codebase uses them:
a number (`int`/`float`, modelled exactly as a rational), a string,
or `None`. -/
inductive Val : Type where
  | num : ℚ → Val
  | str : String → Val
  | null : Val
deriving DecidableEq, Repr

/-- Python `isinstance(v, (int, float))`. -/
def Val.isNum : Val → Bool
  | .num _ => true
  | _ => false

/-- Python truthiness for the values above (`bool(v)`):
`None`, `0` and `""` are falsy. -/
def Val.truthy : Val → Bool
  | .num q => q ≠ 0
  | .str s => s ≠ ""
  | .null => false

/-- Python `a or b` over optional dict lookups: returns the value of `a`
when it is present and truthy, otherwise `b`. -/
def pyOr (a b : Option Val) : Option Val :=
  match a with
  | some v => if v.truthy then some v else b
  | none => b

/-- Split a character list at every occurrence of `sep` (helper for
`pySplit`). -/
def splitCharList (sep : Char) : List Char → List (List Char)
  | [] => [[]]
  | c :: cs =>
      let rest := splitCharList sep cs
      if c = sep then [] :: rest
      else
        match rest with
        | r :: rs => (c :: r) :: rs
        | [] => [[c]]

/-- Python `s.split(sep)` for a single-character separator (the only shape
this codebase uses: `topic.split("/")`, `key.split(":")`). -/
def pySplit (s : String) (sep : Char) : List String :=
  (splitCharList sep s.toList).map fun cs => String.mk cs

/-- Python `s.startswith(p)`. -/
def pyStartsWith (s p : String) : Bool :=
  p.toList.isPrefixOf s.toList

/-- Python `s.endswith(p)`. -/
def pyEndsWith (s p : String) : Bool :=
  p.toList.reverse.isPrefixOf s.toList.reverse

/-- All characters are decimal digits and the string is nonempty. -/
def allDigits (s : String) : Bool :=
  s.length > 0 && s.all (·.isDigit)

/-- Numeric value of a digit string. -/
def digitsVal (s : String) : ℕ :=
  s.foldl (fun n c => 10 * n + (c.toNat - Char.toNat '0')) 0

/-- Python `float(s)` on a string, for plain decimal literals
(optional sign, integer part, optional fractional part).  Exotic float
syntax (exponents, `inf`, `nan`, surrounding whitespace) is not modelled:
no claim depends on it, and on such inputs the model conservatively treats
the conversion as failing. -/
def pyFloatOfString (s : String) : Option ℚ :=
  let neg := pyStartsWith s "-"
  let body := if pyStartsWith s "-" || pyStartsWith s "+" then s.drop 1 else s
  let sign : ℚ → ℚ := fun q => if neg then -q else q
  match pySplit body '.' with
  | [i] => if allDigits i then some (sign (digitsVal i)) else none
  | [i, f] =>
      if (i.all (·.isDigit)) && (f.all (·.isDigit)) && (i.length + f.length > 0) then
        some (sign ((digitsVal i : ℚ) + (digitsVal f : ℚ) / ((10 : ℚ) ^ f.length)))
      else none
  | _ => none

/-- Python `float(v)`: exact on numbers, decimal parse on strings,
raises (`none`) on `None`. -/
def pyFloat : Val → Option ℚ
  | .num q => some q
  | .str s => pyFloatOfString s
  | .null => none

/-- Python `str(v)`.  Strings are themselves and `None` renders as
`"None"`; for numbers the model uses the Lean rational rendering, which
can differ textually from the CPython decimal rendering — no settled claim
depends on the concrete digits, only on `str` being applied to both sides
of a comparison. -/
def pyStr : Val → String
  | .num q => toString q
  | .str s => s
  | .null => "None"

/-! ### Association-list maps (Python dict semantics) -/

/-- First value bound to `k`, like `d.get(k)` / `d[k]`. -/
def alLookup {α : Type} : List (String × α) → String → Option α
  | [], _ => none
  | (k', v) :: t, k => if k' = k then some v else alLookup t k

/-- Python `d[k] = v`: replace in place when present, append otherwise. -/
def alInsert {α : Type} : List (String × α) → String → α → List (String × α)
  | [], k, v => [(k, v)]
  | (k', v') :: t, k, v =>
      if k' = k then (k, v) :: t else (k', v') :: alInsert t k v

/-- Python `del d[k]`: drop the first binding of `k`. -/
def alErase {α : Type} : List (String × α) → String → List (String × α)
  | [], _ => []
  | (k', v') :: t, k => if k' = k then t else (k', v') :: alErase t k

/-! ### Telemetry model (`src/apps/ai/src/models/telemetry.py`) -/

/-- A single sensor reading (`Reading` dataclass). -/
structure Reading where
  id : String
  value : Val
  unit : Option String := none
deriving DecidableEq, Repr

/-- Telemetry message from a device (`TelemetryMessage` dataclass). -/
structure TelemetryMessage where
  version : ℤ
  ts : ℤ
  device_id : String
  location : String
  readings : List Reading
deriving DecidableEq, Repr

/-- One entry of the `payload["readings"]` JSON array; every field can be
absent (`r.get(...)`). -/
structure ReadingDict where
  id : Option String := none
  value : Option Val := none
  unit : Option String := none
deriving DecidableEq, Repr

/-- The fields of the inbound telemetry envelope that
`TelemetryMessage.from_dict` reads, each optional with the dict-`get`
default applied in `from_dict` itself.  `payload_readings` stands for
`data.get("payload", {}).get("readings", [])`. -/
structure TelemetryDict where
  v : Option ℤ := none
  ts : Option ℤ := none
  deviceId : Option String := none
  location : Option String := none
  payload_readings : List ReadingDict := []
deriving DecidableEq, Repr

/-- Model of `TelemetryMessage.from_dict`. -/
def TelemetryMessage.from_dict (data : TelemetryDict) : TelemetryMessage :=
  { version := data.v.getD 1
    ts := data.ts.getD 0
    device_id := data.deviceId.getD ""
    location := data.location.getD ""
    readings := data.payload_readings.map (fun r =>
      { id := r.id.getD "", value := r.value.getD Val.null, unit := r.unit }) }

/-- Model of `TelemetryMessage.get_reading`: first reading whose id matches. -/
def TelemetryMessage.get_reading (t : TelemetryMessage) (sensor_id : String) :
    Option Reading :=
  t.readings.find? (fun r => r.id = sensor_id)

/-! ### Command model (`src/apps/ai/src/models/command.py`) -/

/-- A command to send to a device (`Command` dataclass).  In the source
`correlation_id` defaults to a fresh random token `ai-{uuid4-hex[:8]}`
generated in `__post_init__`; the model carries it as an explicit field
since its concrete bits are nondeterministic. -/
structure Command where
  device_id : String
  location : String
  target : String
  action : String
  value : Val
  reason : Option String := none
  ttl : ℤ := 30000
  correlation_id : String
deriving DecidableEq, Repr

/-- The `payload` object of a command envelope. -/
structure CommandPayload where
  target : String
  action : String
  value : Val
  reason : Option String
  ttl : ℤ
deriving DecidableEq, Repr

/-- The wire envelope produced by `Command.to_mqtt_payload` (and consumed,
after a JSON round-trip that the model treats as the identity on this
structure, by the device-side decoder). -/
structure CommandEnvelope where
  v : ℤ
  ts : ℤ
  correlationId : String
  source : String
  deviceId : String
  location : String
  type : String
  payload : CommandPayload
deriving DecidableEq, Repr

/-- Model of `Command.to_mqtt_payload`; `now_ms` stands for `int(time.time()*1000)`. -/
def Command.to_mqtt_payload (c : Command) (now_ms : ℤ) : CommandEnvelope :=
  { v := 1
    ts := now_ms
    correlationId := c.correlation_id
    source := "ai-orchestrator"
    deviceId := c.device_id
    location := c.location
    type := "command"
    payload :=
      { target := c.target, action := c.action, value := c.value
        reason := c.reason, ttl := c.ttl } }

/-- Model of `Command.topic`. -/
def Command.topic (c : Command) : String :=
  "home/" ++ c.location ++ "/" ++ c.device_id ++ "/command"

/-- Acknowledgment from a device (`CommandAck` dataclass). -/
structure CommandAck where
  correlation_id : String
  status : String
  target : String
  actual_value : Val
  error : Option String
deriving DecidableEq, Repr

/-- The `payload` object of an inbound ack envelope as read by
`CommandAck.from_dict`; every field optional (`payload.get(...)`). -/
structure AckDict where
  correlationId : Option String := none
  status : Option String := none
  target : Option String := none
  actualValue : Option Val := none
  error : Option String := none
deriving DecidableEq, Repr

/-- Model of `CommandAck.from_dict`. -/
def CommandAck.from_dict (d : AckDict) : CommandAck :=
  { correlation_id := d.correlationId.getD ""
    status := d.status.getD ""
    target := d.target.getD ""
    actual_value := d.actualValue.getD Val.null
    error := d.error }

/-! ### Decision engine (`src/apps/ai/src/services/decision_engine.py`) -/

/-- A rule condition (`RuleCondition` dataclass). -/
structure RuleCondition where
  sensor : String
  operator : String
  threshold : Val
  duration_seconds : ℤ := 0
deriving DecidableEq, Repr

/-- A rule action (`RuleAction` dataclass). -/
structure RuleAction where
  target : String
  action : String
  value : Val
  reason : String
deriving DecidableEq, Repr

/-- A rule (`Rule` dataclass). -/
structure Rule where
  name : String
  description : String
  condition : RuleCondition
  action : RuleAction
  enabled : Bool := true
deriving DecidableEq, Repr

/-- Per-key mutable evaluation state (`SensorState` dataclass) with the
defaults of the source. -/
structure SensorState where
  last_value : Option Val := none
  condition_met_since : Option ℚ := none
  last_action_time : ℚ := 0
  cooldown_seconds : ℚ := 60
deriving DecidableEq, Repr

/-- The accesses the engine makes to its `llm_config` dict:
`llm_config.get("enabled", False)` and the `escalation_triggers` mapping
(`"rapid_change" in triggers` / `triggers["rapid_change"]`). -/
structure LlmConfig where
  enabled : Bool := false
  rapid_change : Option ℚ := none
deriving DecidableEq, Repr

/-- The decision engine state (`DecisionEngine` dataclass). -/
structure DecisionEngine where
  rules : List Rule := []
  sensor_states : List (String × SensorState) := []
  llm_config : LlmConfig := {}
deriving DecidableEq, Repr

/-- The sensor-state dict key `f"{device_id}:{sensor}:{rule_name}"`. -/
def stateKey (device_id sensor rule_name : String) : String :=
  device_id ++ ":" ++ sensor ++ ":" ++ rule_name

/-- The string-comparison fall-through at the end of
`DecisionEngine._check_condition` (lines 170–179). -/
def checkConditionFallback (value : Val) (condition : RuleCondition) : Bool :=
  if condition.operator = "==" then pyStr value = pyStr condition.threshold
  else if condition.operator = "!=" then pyStr value ≠ pyStr condition.threshold
  else false

/-- Model of `DecisionEngine._check_condition`.  The numeric branch applies only
when both operands are numbers; an unrecognized operator falls through to
the string branch exactly as the Python `if/elif` chain does.  The
function is total: the comparisons modelled here cannot raise, so the
`except` arm of the source (return `False`) is unreachable in the model. -/
def check_condition (value : Val) (condition : RuleCondition) : Bool :=
  match value, condition.threshold with
  | .num v, .num t =>
      if condition.operator = ">" then decide (v > t)
      else if condition.operator = "<" then decide (v < t)
      else if condition.operator = ">=" then decide (v ≥ t)
      else if condition.operator = "<=" then decide (v ≤ t)
      else if condition.operator = "==" then decide (v = t)
      else if condition.operator = "!=" then decide (v ≠ t)
      else checkConditionFallback value condition
  | _, _ => checkConditionFallback value condition

/-- The body of the `for rule in self.rules` loop of
`DecisionEngine.evaluate`, threading the sensor-state dict and the
accumulated command list.  The source creates the dict entry before
mutating `state` field by field and always ends with
`state.last_value = reading.value`; the model writes the final record
once, which yields the same dict.  The random correlation id of the
emitted command is modelled as `""` (no claim about `evaluate` depends on
it). -/
def evalRule (t : TelemetryMessage) (now : ℚ)
    (acc : List (String × SensorState) × List Command) (rule : Rule) :
    List (String × SensorState) × List Command :=
  let (states, commands) := acc
  if !rule.enabled then acc
  else
    match t.get_reading rule.condition.sensor with
    | none => acc
    | some reading =>
        let key := stateKey t.device_id rule.condition.sensor rule.name
        let st := (alLookup states key).getD {}
        let condition_met := check_condition reading.value rule.condition
        if condition_met then
          let cms := st.condition_met_since.getD now
          if (now - cms ≥ (rule.condition.duration_seconds : ℚ)) ∧
              (now - st.last_action_time ≥ st.cooldown_seconds) then
            let command : Command :=
              { device_id := t.device_id
                location := t.location
                target := rule.action.target
                action := rule.action.action
                value := rule.action.value
                reason := some rule.action.reason
                correlation_id := "" }
            (alInsert states key
              { st with condition_met_since := some cms
                        last_action_time := now
                        last_value := some reading.value },
             commands ++ [command])
          else
            (alInsert states key
              { st with condition_met_since := some cms
                        last_value := some reading.value },
             commands)
        else
          (alInsert states key
            { st with condition_met_since := none
                      last_value := some reading.value },
           commands)

/-- Model of `DecisionEngine.evaluate`; `now` stands for `time.time()` (POSIX epoch
seconds). -/
def DecisionEngine.evaluate (e : DecisionEngine) (now : ℚ)
    (t : TelemetryMessage) : DecisionEngine × List Command :=
  let (states, commands) := e.rules.foldl (evalRule t now) (e.sensor_states, [])
  ({ e with sensor_states := states }, commands)

/-- The `_rapid` sensor-state key `f"{device_id}:temp1:_rapid"`. -/
def rapidKey (device_id : String) : String :=
  device_id ++ ":temp1:_rapid"

/-- Model of `DecisionEngine.should_escalate_to_llm`.  The second component is
`some b` for a normal return of `b` and `none` when the uncaught
`float(...)` conversion raises; the first component is the engine state at
that point (the dict entry for the `_rapid` key is created before the
conversion).  A rapid-change detection returns `True` *before* the
`state.last_value` update statement is reached. -/
def DecisionEngine.should_escalate_to_llm (e : DecisionEngine)
    (t : TelemetryMessage) : DecisionEngine × Option Bool :=
  if !e.llm_config.enabled then (e, some false)
  else
    match e.llm_config.rapid_change with
    | none => (e, some false)
    | some threshold =>
        let key := rapidKey t.device_id
        let st := (alLookup e.sensor_states key).getD {}
        let states1 :=
          if (alLookup e.sensor_states key).isSome then e.sensor_states
          else alInsert e.sensor_states key {}
        let e1 := { e with sensor_states := states1 }
        match t.get_reading "temp1" with
        | none => (e1, some false)
        | some reading =>
            let stUpd : SensorState := { st with last_value := some reading.value }
            let e2 : DecisionEngine := { e with sensor_states := alInsert states1 key stUpd }
            match st.last_value with
            | none => (e2, some false)
            | some prev =>
                match pyFloat reading.value, pyFloat prev with
                | some cur, some prv =>
                    let change := |cur - prv|
                    let change_per_minute := change * 12
                    if change_per_minute > threshold then (e1, some true)
                    else (e2, some false)
                | _, _ => (e1, none)

/-! ### MQTT service handlers (`src/apps/ai/src/services/mqtt_client.py`) -/

/-- The routing test of `MqttService._on_message` for the legacy topic
shape: `topic.startswith("/device/") and topic.endswith("/telemetry")`. -/
def isLegacyTopic (topic : String) : Bool :=
  pyStartsWith topic "/device/" && pyEndsWith topic "/telemetry"

/-- The keys of a legacy flat telemetry JSON object that
`MqttService._handle_legacy_telemetry` reads, each optional. -/
structure LegacyPayload where
  tempC : Option Val := none
  temp : Option Val := none
  humidity : Option Val := none
  ts : Option ℤ := none
deriving DecidableEq, Repr

/-- Model of `MqttService._handle_legacy_telemetry`.  `has_handler` models
`self._on_telemetry` being set, `now_ms` models `int(time.time()*1000)`;
the result is `some t` when the handler is invoked with telemetry `t` and
`none` when the message is dropped. -/
def handle_legacy_telemetry (has_handler : Bool) (topic : String)
    (payload : LegacyPayload) (now_ms : ℤ) : Option TelemetryMessage :=
  if !has_handler then none
  else
    let parts := pySplit topic '/'
    let device_id := parts.getD 2 "unknown"
    let temp := pyOr payload.tempC payload.temp
    match temp, payload.humidity with
    | some tv, some hv =>
        let converted : TelemetryDict :=
          { v := some 1
            ts := some (payload.ts.getD now_ms)
            deviceId := some device_id
            location := some "unknown"
            payload_readings :=
              [{ id := some "temp1", value := some tv },
               { id := some "hum1", value := some hv }] }
        some (TelemetryMessage.from_dict converted)
    | _, _ => none

/-- Model of `MqttService._handle_ack`: parse the ack payload and delete the
matching pending entry when present.  The `_on_ack` user callback is
outside the pending-map contract and not modelled.  The function is total
(the source path cannot raise). -/
def handle_ack (pending : List (String × Command)) (d : AckDict) :
    List (String × Command) :=
  let ack := CommandAck.from_dict d
  if (alLookup pending ack.correlation_id).isSome then
    alErase pending ack.correlation_id
  else pending

/-! ### Device-side command decoding (`src/device/lib/home_hub.py`) -/

/-- The argument tuple `HomeHubClient._handle_message` passes to the
registered command handler:
`handler(correlation_id, target, action, value, ttl)`. -/
structure HandlerCall where
  correlationId : String
  target : String
  action : String
  value : Val
  ttl : ℤ
deriving DecidableEq, Repr

/-- Model of `HomeHubClient._handle_message` on a decoded command envelope
(the JSON decode of the published `to_mqtt_payload` dict is the identity
on `CommandEnvelope`).  `handler_set` models `self._command_handler` being
set; the result is the handler invocation, if any. -/
def device_handle_message (handler_set : Bool) (data : CommandEnvelope) :
    Option HandlerCall :=
  if data.type = "command" && handler_set then
    some { correlationId := data.correlationId
           target := data.payload.target
           action := data.payload.action
           value := data.payload.value
           ttl := data.payload.ttl }
  else none

/-! ### Orchestrator telemetry path (`src/apps/ai/src/main.py`) -/

/-- Outcome of one `Orchestrator._handle_telemetry` call. -/
structure OrchResult where
  engine : DecisionEngine
  pending_llm : Bool
  commands : List Command
  escalated : Bool
  raised : Bool
deriving Repr

/-- Model of `Orchestrator._handle_telemetry`.  `ollama_available` models
`self.ollama and self.ollama.is_available()`; `commands` are the rule
commands handed to `_execute_command`; `escalated` records whether an
async LLM analysis was submitted (which also sets `_pending_llm_analysis`);
`raised` records an exception escaping `should_escalate_to_llm` (the
commands had already been executed at that point). -/
def handle_telemetry (engine : DecisionEngine) (pending_llm : Bool)
    (ollama_available : Bool) (now : ℚ) (t : TelemetryMessage) : OrchResult :=
  let (e1, commands) := engine.evaluate now t
  if commands.isEmpty then
    let (e2, r) := e1.should_escalate_to_llm t
    match r with
    | none =>
        { engine := e2, pending_llm := pending_llm, commands := commands
          escalated := false, raised := true }
    | some esc =>
        if esc && ollama_available && !pending_llm then
          { engine := e2, pending_llm := true, commands := commands
            escalated := true, raised := false }
        else
          { engine := e2, pending_llm := pending_llm, commands := commands
            escalated := false, raised := false }
  else
    { engine := e1, pending_llm := pending_llm, commands := commands
      escalated := false, raised := false }

/-! ### Spec-side comparison definition -/

/-- Modelled from the comparison-semantics wording of the spec (§4.2), for the
refinement comparison with `check_condition`: "if both the reading value
and threshold are numeric, apply the numeric operator; otherwise fall back
to string equality/inequality only for `==`/`!=`; any other operator
against non-numeric operands evaluates to false (never raises)". -/
def check_condition_spec (value : Val) (condition : RuleCondition) : Bool :=
  match value, condition.threshold with
  | .num v, .num t =>
      if condition.operator = ">" then decide (v > t)
      else if condition.operator = "<" then decide (v < t)
      else if condition.operator = ">=" then decide (v ≥ t)
      else if condition.operator = "<=" then decide (v ≤ t)
      else if condition.operator = "==" then decide (v = t)
      else if condition.operator = "!=" then decide (v ≠ t)
      else false
  | _, _ =>
      if condition.operator = "==" then pyStr value = pyStr condition.threshold
      else if condition.operator = "!=" then pyStr value ≠ pyStr condition.threshold
      else false

/-! ### Test fixtures shared by the concrete theorems below -/

/-- A telemetry message carrying a single `temp1` reading. -/
def tempTelemetry (device location : String) (q : ℚ) : TelemetryMessage :=
  { version := 1, ts := 0, device_id := device, location := location
    readings := [{ id := "temp1", value := Val.num q }] }

/-- A threshold rule on `temp1 > 30` driving a fan, with the given
duration requirement. -/
def fanRule (dur : ℤ) : Rule :=
  { name := "r", description := "fan on when hot"
    condition := { sensor := "temp1", operator := ">", threshold := Val.num 30
                   duration_seconds := dur }
    action := { target := "fan", action := "set", value := Val.num 1
                reason := "hot" } }

/-- Run `evaluate` over a sequence of (clock, telemetry) pairs, collecting
the commands emitted by each call. -/
def evalSeq (e : DecisionEngine) :
    List (ℚ × TelemetryMessage) → DecisionEngine × List (List Command)
  | [] => (e, [])
  | (now, t) :: rest =>
      let (e', cs) := e.evaluate now t
      let (e'', css) := evalSeq e' rest
      (e'', cs :: css)

/-! ## Lemmas about the association-list map operations -/

theorem alLookup_alInsert_self {α : Type} (m : List (String × α)) (k : String) (v : α) :
    alLookup (alInsert m k v) k = some v := by
  induction m with
  | nil => simp [alInsert, alLookup]
  | cons hd tl ih =>
      obtain ⟨k', v'⟩ := hd
      by_cases h : k' = k <;> simp [alInsert, alLookup, h, ih]

theorem alLookup_alInsert_ne {α : Type} (m : List (String × α)) (k k' : String) (v : α)
    (h : k' ≠ k) : alLookup (alInsert m k v) k' = alLookup m k' := by
  induction m with
  | nil => simp [alInsert, alLookup, Ne.symm h]
  | cons hd tl ih =>
      obtain ⟨k₀, v₀⟩ := hd
      by_cases h0 : k₀ = k
      · subst h0
        simp [alInsert, alLookup, Ne.symm h]
      · simp [alInsert, alLookup, h0, ih]

theorem alLookup_eq_none_of_not_mem {α : Type} (m : List (String × α)) (k : String)
    (h : k ∉ m.map Prod.fst) : alLookup m k = none := by
  induction m with
  | nil => rfl
  | cons hd tl ih =>
      obtain ⟨k', v'⟩ := hd
      simp only [List.map_cons, List.mem_cons] at h
      push_neg at h
      simp [alLookup, Ne.symm h.1, ih h.2]

theorem alErase_length {α : Type} (m : List (String × α)) (k : String) (v : α)
    (h : alLookup m k = some v) : (alErase m k).length + 1 = m.length := by
  induction m with
  | nil => simp [alLookup] at h
  | cons hd tl ih =>
      obtain ⟨k', v'⟩ := hd
      by_cases h0 : k' = k
      · simp [alErase, h0]
      · simp only [alLookup, h0, if_false] at h
        simp [alErase, h0, ih h]

theorem alLookup_alErase_self {α : Type} (m : List (String × α)) (k : String)
    (hnd : (m.map Prod.fst).Nodup) : alLookup (alErase m k) k = none := by
  induction m with
  | nil => rfl
  | cons hd tl ih =>
      obtain ⟨k', v'⟩ := hd
      simp only [List.map_cons, List.nodup_cons] at hnd
      by_cases h0 : k' = k
      · subst h0
        simp only [alErase, if_pos rfl]
        exact alLookup_eq_none_of_not_mem tl k' hnd.1
      · simp [alErase, alLookup, h0, ih hnd.2]

theorem alLookup_alErase_ne {α : Type} (m : List (String × α)) (k k' : String)
    (h : k' ≠ k) : alLookup (alErase m k) k' = alLookup m k' := by
  induction m with
  | nil => rfl
  | cons hd tl ih =>
      obtain ⟨k₀, v₀⟩ := hd
      by_cases h0 : k₀ = k
      · subst h0
        simp [alErase, alLookup, Ne.symm h]
      · simp [alErase, alLookup, h0, ih]

/-! ## Claim theorems -/

/-- C5: the condition check is total and matches the case analysis
described by the spec — both operands numeric applies the numeric operator, otherwise
`==`/`!=` fall back to string comparison and the order operators evaluate
to false; being a Lean function, `check_condition` returns a boolean on
every input (the `except` arm of the source is unreachable because none of
the modelled comparisons can raise). -/
theorem c5_check_condition_total (value : Val) (condition : RuleCondition) :
    check_condition value condition = check_condition_spec value condition := by
  rcases value with q | s | _ <;> rcases ht : condition.threshold with q' | s' | _ <;>
    (simp only [check_condition, check_condition_spec, checkConditionFallback, ht] <;>
      split_ifs <;> simp_all)

/-- C6: the legacy flat message `{"tempC": 21.5, "humidity": 40}` on topic
`/device/esp32-1/telemetry` matches the legacy routing test and decodes to
a telemetry message with device id `esp32-1`, location `unknown` and
readings `[temp1 = 21.5, hum1 = 40]` in that order, which is handed to the
telemetry handler (`some` result). -/
theorem c6_legacy_decode (now_ms : ℤ) :
    isLegacyTopic "/device/esp32-1/telemetry" = true ∧
    handle_legacy_telemetry true "/device/esp32-1/telemetry"
        { tempC := some (Val.num (43 / 2)), humidity := some (Val.num 40) } now_ms =
      some { version := 1, ts := now_ms, device_id := "esp32-1", location := "unknown"
             readings := [{ id := "temp1", value := Val.num (43 / 2) },
                          { id := "hum1", value := Val.num 40 }] } := by
  refine ⟨by decide, ?_⟩
  have hsplit : pySplit "/device/esp32-1/telemetry" '/' =
      ["", "device", "esp32-1", "telemetry"] := by decide
  have htr : (Val.num (43 / 2)).truthy = true := by
    simp only [Val.truthy, decide_eq_true_eq]
    norm_num
  simp [handle_legacy_telemetry, pyOr, hsplit, htr, TelemetryMessage.from_dict]


/-- C7: with escalation enabled and `rapid_change = 5`, two consecutive
calls for device `d` with `temp1` readings `20.0` then `21.0` make the
second call return true (rate 12 °/min), while `20.0` then `20.1` make the
second call return false (rate 1.2 °/min). -/
theorem c7_rapid_change_scenarios :
    let e : DecisionEngine := { llm_config := { enabled := true, rapid_change := some 5 } }
    let first := e.should_escalate_to_llm (tempTelemetry "d" "loc" 20)
    first.2 = some false ∧
    (first.1.should_escalate_to_llm (tempTelemetry "d" "loc" 21)).2 = some true ∧
    (first.1.should_escalate_to_llm (tempTelemetry "d" "loc" (201 / 10))).2 = some false := by
  norm_num [DecisionEngine.should_escalate_to_llm, tempTelemetry, rapidKey,
    TelemetryMessage.get_reading, alLookup, alInsert, pyFloat, List.find?,
    abs_of_nonneg (show (0:ℚ) ≤ 1/10 by norm_num)]

/-- C2 counterexample: escalation enabled, `rapid_change = 5`, previous
`temp1` value `20` recorded; a call with `temp1 = 21` returns true, and
the previous-value slot of the `(d, temp1, _rapid)` state still holds `20`
— it was not updated to the current reading `21`, refuting "updated on
every call ... regardless of whether the call returns true or false". -/
theorem c2_counterexample :
    let e : DecisionEngine :=
      { sensor_states := [(rapidKey "d", { last_value := some (Val.num 20) })]
        llm_config := { enabled := true, rapid_change := some 5 } }
    let result := e.should_escalate_to_llm (tempTelemetry "d" "loc" 21)
    result.2 = some true ∧
    (alLookup result.1.sensor_states (rapidKey "d")).map SensorState.last_value =
      some (some (Val.num 20)) ∧
    ¬ (alLookup result.1.sensor_states (rapidKey "d")).map SensorState.last_value =
      some (some (Val.num 21)) := by
  norm_num [DecisionEngine.should_escalate_to_llm, tempTelemetry, rapidKey,
    TelemetryMessage.get_reading, alLookup, alInsert, pyFloat, List.find?]

/-- C9 counterexample: two commands that differ only in `reason` produce
identical handler invocations on the device side — the decoder passes
`correlation_id, target, action, value, ttl` to the handler and drops
`reason`, refuting "the device-side decoder delivers those same values
(including reason) to the command handler". -/
theorem c9_counterexample :
    let c1 : Command := { device_id := "d", location := "l", target := "fan"
                          action := "set", value := Val.num 1
                          reason := some "reason-A", correlation_id := "ai-1" }
    let c2 : Command := { c1 with reason := some "reason-B" }
    device_handle_message true (c1.to_mqtt_payload 0) =
        device_handle_message true (c2.to_mqtt_payload 0) ∧
    c1.reason ≠ c2.reason := by
  decide

/-- C9 amended: serializing a command reproduces `target`, `action`,
`value`, `reason` and `ttl` exactly in the envelope payload, and the
envelope has type `"command"`; the device-side decoder invokes the handler
with `correlationId, target, action, value, ttl` (the `reason` survives in
the decoded payload but is not among the handler arguments). -/
theorem c9_amended_roundtrip (c : Command) (now_ms : ℤ) :
    (c.to_mqtt_payload now_ms).type = "command" ∧
    (c.to_mqtt_payload now_ms).payload.target = c.target ∧
    (c.to_mqtt_payload now_ms).payload.action = c.action ∧
    (c.to_mqtt_payload now_ms).payload.value = c.value ∧
    (c.to_mqtt_payload now_ms).payload.reason = c.reason ∧
    (c.to_mqtt_payload now_ms).payload.ttl = c.ttl ∧
    device_handle_message true (c.to_mqtt_payload now_ms) =
      some { correlationId := c.correlation_id, target := c.target
             action := c.action, value := c.value, ttl := c.ttl } := by
  refine ⟨rfl, rfl, rfl, rfl, rfl, rfl, rfl⟩

/-- C1: for a single-rule engine with `durationSeconds = 0` and the default
`cooldownSeconds = 60`, (first conjunct) an evaluation at clock `now` whose
condition holds fires exactly one command and stamps `lastActionTime = now`,
provided the state at the key is fresh (no prior firing: `lastActionTime = 0`,
no running duration) and `60 ≤ now` — the latter always holds in the source,
where `now` is POSIX epoch seconds; (second conjunct) any evaluation at a
clock less than `cooldownSeconds` past the recorded `lastActionTime` emits
no command for that key, even if the condition still holds. -/
theorem c1_cooldown_window :
    (∀ (rule : Rule) (states : List (String × SensorState)) (llm : LlmConfig)
        (t : TelemetryMessage) (r : Reading) (now : ℚ),
      rule.enabled = true →
      rule.condition.duration_seconds = 0 →
      t.get_reading rule.condition.sensor = some r →
      check_condition r.value rule.condition = true →
      ((alLookup states (stateKey t.device_id rule.condition.sensor rule.name)).getD
          {}).last_action_time = 0 →
      ((alLookup states (stateKey t.device_id rule.condition.sensor rule.name)).getD
          {}).condition_met_since = none →
      ((alLookup states (stateKey t.device_id rule.condition.sensor rule.name)).getD
          {}).cooldown_seconds = 60 →
      60 ≤ now →
      (DecisionEngine.evaluate
          { rules := [rule], sensor_states := states, llm_config := llm } now t).2.length
        = 1 ∧
      (alLookup (DecisionEngine.evaluate
            { rules := [rule], sensor_states := states, llm_config := llm } now
            t).1.sensor_states
          (stateKey t.device_id rule.condition.sensor rule.name)).map
          SensorState.last_action_time = some now) ∧
    (∀ (rule : Rule) (states : List (String × SensorState)) (llm : LlmConfig)
        (t : TelemetryMessage) (now : ℚ) (st : SensorState),
      alLookup states (stateKey t.device_id rule.condition.sensor rule.name) = some st →
      st.cooldown_seconds = 60 →
      now - st.last_action_time < 60 →
      (DecisionEngine.evaluate
          { rules := [rule], sensor_states := states, llm_config := llm } now t).2 = []) := by
  constructor
  · intro rule states llm t r now hen hdur hread hcond hla hcms hcd hnow
    simp only [DecisionEngine.evaluate, List.foldl, evalRule, hen, Bool.not_true,
      Bool.false_eq_true, if_false, hread, hcond, if_true, hcms, Option.getD_none, hdur]
    rw [if_pos]
    · refine ⟨by simp, ?_⟩
      rw [alLookup_alInsert_self]
      simp
    · constructor
      · simp
      · rw [hla, hcd]
        simpa using hnow
  · intro rule states llm t now st hlook hcd hcool
    simp only [DecisionEngine.evaluate, List.foldl, evalRule]
    by_cases hen : rule.enabled
    · simp only [hen, Bool.not_true, Bool.false_eq_true, if_false]
      cases hread : t.get_reading rule.condition.sensor with
      | none => rfl
      | some r =>
          simp only [hlook, Option.getD_some]
          cases hcond : check_condition r.value rule.condition with
          | false => simp
          | true =>
              simp only [if_true]
              rw [if_neg]
              · intro hand
                rw [hcd] at hand
                have := hand.2
                linarith
    · simp [hen]

/-- C1 witness: a fresh `temp1 > 30` rule with zero duration fires once at
clock 100 on reading 35, and with `lastActionTime = 100` recorded, an
evaluation at clock 130 (30 s into the 60 s cooldown) emits nothing. -/
theorem c1_cooldown_window_witness :
    (DecisionEngine.evaluate
        { rules := [fanRule 0], sensor_states := [], llm_config := {} } 100
        (tempTelemetry "d" "loc" 35)).2.length = 1 ∧
    (DecisionEngine.evaluate
        { rules := [fanRule 0]
          sensor_states := [(stateKey "d" "temp1" "r", { last_action_time := 100 })]
          llm_config := {} } 130 (tempTelemetry "d" "loc" 35)).2 = [] :=
  ⟨(c1_cooldown_window.1 (fanRule 0) [] {} (tempTelemetry "d" "loc" 35)
      { id := "temp1", value := Val.num 35 } 100 rfl rfl (by decide)
      (by norm_num [check_condition, fanRule]) rfl rfl rfl (by norm_num)).1,
   c1_cooldown_window.2 (fanRule 0)
      [(stateKey "d" "temp1" "r", { last_action_time := 100 })] {}
      (tempTelemetry "d" "loc" 35) 130 { last_action_time := 100 }
      (by simp [alLookup, stateKey, tempTelemetry, fanRule]) rfl (by norm_num)⟩

/-- C3: (first conjunct) a `durationSeconds = 30` rule evaluated on one key
at clock offsets 0, 10, 15, 20, 35, 50 from epoch instant 1000, with the
condition true, true, false, true, true, true, emits nothing through the
offset-20 evaluation (the false reading at offset 15 cleared
`conditionMetSince`, so only 0 s had accumulated at offset 20) and fires on
the offset-50 evaluation (30 s accumulated since offset 20);
(second conjunct) in general, any evaluation where the condition is false
resets `conditionMetSince` for that key to `none`. -/
theorem c3_duration_reset :
    ((evalSeq { rules := [fanRule 30] }
        [(1000, tempTelemetry "d" "loc" 35), (1010, tempTelemetry "d" "loc" 35),
         (1015, tempTelemetry "d" "loc" 25), (1020, tempTelemetry "d" "loc" 35),
         (1035, tempTelemetry "d" "loc" 35), (1050, tempTelemetry "d" "loc" 35)]).2.map
        List.length = [0, 0, 0, 0, 0, 1]) ∧
    (∀ (rule : Rule) (states : List (String × SensorState)) (llm : LlmConfig)
        (t : TelemetryMessage) (r : Reading) (now : ℚ),
      rule.enabled = true →
      t.get_reading rule.condition.sensor = some r →
      check_condition r.value rule.condition = false →
      (alLookup (DecisionEngine.evaluate
            { rules := [rule], sensor_states := states, llm_config := llm } now
            t).1.sensor_states
          (stateKey t.device_id rule.condition.sensor rule.name)).map
          SensorState.condition_met_since = some none) := by
  constructor
  · norm_num [evalSeq, DecisionEngine.evaluate, evalRule, fanRule, tempTelemetry,
      TelemetryMessage.get_reading, List.find?, check_condition, stateKey,
      alLookup, alInsert]
  · intro rule states llm t r now hen hread hcond
    simp only [DecisionEngine.evaluate, List.foldl, evalRule, hen, Bool.not_true,
      Bool.false_eq_true, if_false, hread, hcond]
    rw [alLookup_alInsert_self]
    simp

/-- C3 witness: evaluating the `temp1 > 30` rule on reading 25 (condition
false) leaves `conditionMetSince` for the key cleared. -/
theorem c3_duration_reset_witness :
    (alLookup (DecisionEngine.evaluate
          { rules := [fanRule 30], sensor_states := [], llm_config := {} } 100
          (tempTelemetry "d" "loc" 25)).1.sensor_states
        (stateKey "d" "temp1" "r")).map SensorState.condition_met_since = some none :=
  c3_duration_reset.2 (fanRule 30) [] {} (tempTelemetry "d" "loc" 25)
    { id := "temp1", value := Val.num 25 } 100 rfl (by decide)
    (by norm_num [check_condition, fanRule])

/-- C4 counterexample: rule `A` (sensor `"s"`, name `"x:n"`) is enabled and
its sensor is absent from the telemetry, and its key has no entry
beforehand — yet after `evaluate` an entry exists at `A`'s key, because
rule `B` (sensor `"s:x"`, name `"n"`, reading present) flattens to the
same colon-joined key string `d:s:x:n`.  This refutes "no SensorState
entry is created and no existing entry is mutated" for the skipped rule's
key. -/
theorem c4_counterexample :
    let ruleA : Rule :=
      { name := "x:n", description := ""
        condition := { sensor := "s", operator := ">", threshold := Val.num 0 }
        action := { target := "a", action := "set", value := Val.num 1, reason := "" } }
    let ruleB : Rule :=
      { name := "n", description := ""
        condition := { sensor := "s:x", operator := ">", threshold := Val.num 0 }
        action := { target := "b", action := "set", value := Val.num 1, reason := "" } }
    let t : TelemetryMessage :=
      { version := 1, ts := 0, device_id := "d", location := "loc"
        readings := [{ id := "s:x", value := Val.num 5 }] }
    ruleA.enabled = true ∧
    t.get_reading ruleA.condition.sensor = none ∧
    stateKey t.device_id ruleA.condition.sensor ruleA.name =
      stateKey t.device_id ruleB.condition.sensor ruleB.name ∧
    alLookup ([] : List (String × SensorState))
      (stateKey t.device_id ruleA.condition.sensor ruleA.name) = none ∧
    alLookup (DecisionEngine.evaluate
          { rules := [ruleA, ruleB], sensor_states := [], llm_config := {} } 100
          t).1.sensor_states
        (stateKey t.device_id ruleA.condition.sensor ruleA.name) ≠ none := by
  refine ⟨rfl, by decide, by decide, rfl, ?_⟩
  norm_num [DecisionEngine.evaluate, evalRule, TelemetryMessage.get_reading,
    List.find?, check_condition, stateKey, alLookup, alInsert]
  exact ⟨by decide, by simp⟩

/-- A rule whose sensor reading is absent (or that is disabled) is a
no-op step of the evaluation fold. -/
theorem evalRule_skip (t : TelemetryMessage) (now : ℚ)
    (acc : List (String × SensorState) × List Command) (rule : Rule)
    (h : t.get_reading rule.condition.sensor = none) :
    evalRule t now acc rule = acc := by
  obtain ⟨states, commands⟩ := acc
  by_cases hen : rule.enabled <;> simp [evalRule, hen, h]

/-- One evaluation step can only touch the sensor-state binding at its own
key: lookups at any other key are preserved. -/
theorem evalRule_lookup_preserve (t : TelemetryMessage) (now : ℚ)
    (acc : List (String × SensorState) × List Command) (rule : Rule) (k : String)
    (h : rule.enabled = true → t.get_reading rule.condition.sensor ≠ none →
      stateKey t.device_id rule.condition.sensor rule.name ≠ k) :
    alLookup (evalRule t now acc rule).1 k = alLookup acc.1 k := by
  obtain ⟨states, commands⟩ := acc
  by_cases hen : rule.enabled
  · cases hread : t.get_reading rule.condition.sensor with
    | none => simp [evalRule, hen, hread]
    | some r =>
        have hk : stateKey t.device_id rule.condition.sensor rule.name ≠ k :=
          h hen (by simp [hread])
        simp only [evalRule, hen, Bool.not_true, Bool.false_eq_true, if_false, hread]
        cases hc : check_condition r.value rule.condition with
        | false => simpa using alLookup_alInsert_ne states _ k _ (Ne.symm hk)
        | true =>
            simp only [if_true]
            split <;> simpa using alLookup_alInsert_ne states _ k _ (Ne.symm hk)
  · simp [evalRule, hen]

/-- Folding the evaluation step over a rule list preserves lookups at any
key not owned by a rule that actually processes a reading. -/
theorem evalFold_lookup_preserve (t : TelemetryMessage) (now : ℚ)
    (rules : List Rule) (acc : List (String × SensorState) × List Command)
    (k : String)
    (h : ∀ r ∈ rules, r.enabled = true → t.get_reading r.condition.sensor ≠ none →
      stateKey t.device_id r.condition.sensor r.name ≠ k) :
    alLookup (rules.foldl (evalRule t now) acc).1 k = alLookup acc.1 k := by
  induction rules generalizing acc with
  | nil => rfl
  | cons hd tl ih =>
      rw [List.foldl_cons, ih _ (fun r hr => h r (List.mem_cons_of_mem _ hr))]
      exact evalRule_lookup_preserve t now acc hd k (h hd (List.mem_cons_self hd tl))

/-- C4 amended: an enabled rule whose sensor is absent from the telemetry
is skipped — its evaluation step emits no command and performs no state
mutation at all — and, provided the `device:sensor:name` string of no
*other* processed rule collides with the key of this rule (always true
when sensor ids and rule names contain no `:`), the sensor-state map is
unchanged at the key of this rule. -/
theorem c4_amended_skip_frame (e : DecisionEngine) (t : TelemetryMessage)
    (now : ℚ) (rule : Rule)
    (_hmem : rule ∈ e.rules) (_hen : rule.enabled = true)
    (habs : t.get_reading rule.condition.sensor = none)
    (hnocoll : ∀ r ∈ e.rules, r.enabled = true →
      t.get_reading r.condition.sensor ≠ none →
      stateKey t.device_id r.condition.sensor r.name ≠
        stateKey t.device_id rule.condition.sensor rule.name) :
    (∀ acc, evalRule t now acc rule = acc) ∧
    alLookup (e.evaluate now t).1.sensor_states
        (stateKey t.device_id rule.condition.sensor rule.name) =
      alLookup e.sensor_states
        (stateKey t.device_id rule.condition.sensor rule.name) := by
  constructor
  · intro acc
    exact evalRule_skip t now acc rule habs
  · show alLookup (e.rules.foldl (evalRule t now) (e.sensor_states, [])).1 _ = _
    exact evalFold_lookup_preserve t now e.rules (e.sensor_states, []) _ hnocoll

/-- C4 witness: a telemetry message with no readings skips the enabled
`temp1` rule — the step is a no-op and the (empty) state map is unchanged
at the key of the rule. -/
theorem c4_amended_skip_frame_witness :
    evalRule { version := 1, ts := 0, device_id := "d", location := "loc", readings := [] }
        100 ([], []) (fanRule 0) = ([], []) ∧
    alLookup (DecisionEngine.evaluate
          { rules := [fanRule 0], sensor_states := [], llm_config := {} } 100
          { version := 1, ts := 0, device_id := "d", location := "loc"
            readings := [] }).1.sensor_states (stateKey "d" "temp1" "r") =
      alLookup ([] : List (String × SensorState)) (stateKey "d" "temp1" "r") :=
  ⟨(c4_amended_skip_frame
      { rules := [fanRule 0], sensor_states := [], llm_config := {} }
      { version := 1, ts := 0, device_id := "d", location := "loc", readings := [] }
      100 (fanRule 0) (by decide) rfl (by decide) (by decide)).1 ([], []),
   (c4_amended_skip_frame
      { rules := [fanRule 0], sensor_states := [], llm_config := {} }
      { version := 1, ts := 0, device_id := "d", location := "loc", readings := [] }
      100 (fanRule 0) (by decide) rfl (by decide) (by decide)).2⟩

/-- C2 amended: when LLM escalation is enabled and a `rapid_change`
trigger is configured, any `should_escalate_to_llm` call whose telemetry
contains a `temp1` reading and which returns false updates the
previous-value slot of the `(deviceId, temp1, _rapid)` state to the
current `temp1` value.  (A call returning true exits before the update —
see the counterexample — and a call with escalation disabled or the
trigger absent performs no update at all.) -/
theorem c2_amended_update_on_false (e : DecisionEngine) (t : TelemetryMessage)
    (r : Reading) (thr : ℚ)
    (hen : e.llm_config.enabled = true)
    (htrig : e.llm_config.rapid_change = some thr)
    (hr : t.get_reading "temp1" = some r)
    (hfalse : (e.should_escalate_to_llm t).2 = some false) :
    (alLookup (e.should_escalate_to_llm t).1.sensor_states
        (rapidKey t.device_id)).map SensorState.last_value = some (some r.value) := by
  unfold DecisionEngine.should_escalate_to_llm at hfalse ⊢
  simp only [hen, Bool.not_true, Bool.false_eq_true, if_false, htrig, hr] at hfalse ⊢
  cases hlv : ((alLookup e.sensor_states (rapidKey t.device_id)).getD {}).last_value with
  | none =>
      simp only [hlv]
      rw [alLookup_alInsert_self]
      simp
  | some prev =>
      cases hcv : pyFloat r.value with
      | none => simp [hlv, hcv] at hfalse
      | some cur =>
          cases hpv : pyFloat prev with
          | none => simp [hlv, hcv, hpv] at hfalse
          | some prv =>
              by_cases hgt : |cur - prv| * 12 > thr
              · simp [hlv, hcv, hpv, hgt] at hfalse
              · simp only [hlv, hcv, hpv, hgt, if_false]
                rw [alLookup_alInsert_self]
                simp

/-- C2 amended witness: first call with `temp1 = 20` (no previous value)
returns false and records 20 as the previous value. -/
theorem c2_amended_update_on_false_witness :
    (alLookup (DecisionEngine.should_escalate_to_llm
          { rules := [], sensor_states := []
            llm_config := { enabled := true, rapid_change := some 5 } }
          (tempTelemetry "d" "loc" 20)).1.sensor_states
        (rapidKey "d")).map SensorState.last_value = some (some (Val.num 20)) :=
  c2_amended_update_on_false
    { rules := [], sensor_states := []
      llm_config := { enabled := true, rapid_change := some 5 } }
    (tempTelemetry "d" "loc" 20) { id := "temp1", value := Val.num 20 } 5
    rfl rfl (by decide) (by decide)

/-- C8: resolving an ack whose `correlationId` is not pending leaves the
pending-command map unchanged (the handler is total, so nothing is
raised); resolving an ack whose `correlationId` is pending removes exactly
that entry — the map shrinks by one, the id no longer resolves, and every
binding at every other key is untouched. -/
theorem c8_ack_resolution :
    (∀ (pending : List (String × Command)) (d : AckDict),
      alLookup pending (CommandAck.from_dict d).correlation_id = none →
      handle_ack pending d = pending) ∧
    (∀ (pending : List (String × Command)) (d : AckDict) (cmd : Command),
      (pending.map Prod.fst).Nodup →
      alLookup pending (CommandAck.from_dict d).correlation_id = some cmd →
      (handle_ack pending d).length + 1 = pending.length ∧
      alLookup (handle_ack pending d) (CommandAck.from_dict d).correlation_id = none ∧
      ∀ k, k ≠ (CommandAck.from_dict d).correlation_id →
        alLookup (handle_ack pending d) k = alLookup pending k) := by
  constructor
  · intro pending d h
    simp [handle_ack, h]
  · intro pending d cmd hnd h
    have herase : handle_ack pending d =
        alErase pending (CommandAck.from_dict d).correlation_id := by
      simp [handle_ack, h]
    rw [herase]
    exact ⟨alErase_length pending _ cmd h,
      alLookup_alErase_self pending _ hnd,
      fun k hk => alLookup_alErase_ne pending _ k hk⟩

/-- C8 witness: on the two-entry pending map `[ai-1, ai-2]`, an ack for
unknown id `zz` is a no-op and an ack for `ai-1` shrinks the map to one
entry. -/
theorem c8_ack_resolution_witness :
    handle_ack
        [("ai-1", { device_id := "d", location := "l", target := "t1", action := "set"
                    value := Val.num 1, correlation_id := "ai-1" }),
         ("ai-2", { device_id := "d", location := "l", target := "t2", action := "set"
                    value := Val.num 2, correlation_id := "ai-2" })]
        { correlationId := some "zz" } =
      [("ai-1", { device_id := "d", location := "l", target := "t1", action := "set"
                  value := Val.num 1, correlation_id := "ai-1" }),
       ("ai-2", { device_id := "d", location := "l", target := "t2", action := "set"
                  value := Val.num 2, correlation_id := "ai-2" })] ∧
    (handle_ack
        [("ai-1", { device_id := "d", location := "l", target := "t1", action := "set"
                    value := Val.num 1, correlation_id := "ai-1" }),
         ("ai-2", { device_id := "d", location := "l", target := "t2", action := "set"
                    value := Val.num 2, correlation_id := "ai-2" })]
        { correlationId := some "ai-1" }).length + 1 = 2 :=
  ⟨c8_ack_resolution.1 _ { correlationId := some "zz" } (by decide),
   (c8_ack_resolution.2 _ { correlationId := some "ai-1" }
      { device_id := "d", location := "l", target := "t1", action := "set"
        value := Val.num 1, correlation_id := "ai-1" }
      (by decide) (by decide)).1⟩

/-- C10: the orchestrator telemetry path never submits an LLM analysis for
a message whose rule evaluation produced commands, and a submitted
analysis implies the command list was empty and no previous analysis was
still pending. -/
theorem c10_escalation_gating (engine : DecisionEngine) (pending_llm : Bool)
    (ollama_available : Bool) (now : ℚ) (t : TelemetryMessage) :
    ((handle_telemetry engine pending_llm ollama_available now t).commands ≠ [] →
      (handle_telemetry engine pending_llm ollama_available now t).escalated = false) ∧
    ((handle_telemetry engine pending_llm ollama_available now t).escalated = true →
      (handle_telemetry engine pending_llm ollama_available now t).commands = [] ∧
      pending_llm = false) := by
  unfold handle_telemetry
  rcases hev : engine.evaluate now t with ⟨e1, cmds⟩
  by_cases hc : cmds.isEmpty
  · rcases hesc : e1.should_escalate_to_llm t with ⟨e2, res⟩
    have hcnil : cmds = [] := by simpa using hc
    cases res with
    | none => simp [hc, hesc, hcnil]
    | some esc =>
        by_cases hgo : (esc && ollama_available && !pending_llm) = true
        · have h3 := Bool.and_eq_true_iff.mp hgo
          have hpend : pending_llm = false := by simpa using h3.2
          have h4 := Bool.and_eq_true_iff.mp h3.1
          simp [hc, hesc, hgo, hcnil, hpend, h4.1, h4.2]
        · simp [hc, hesc, Bool.eq_false_iff.mpr hgo, hcnil]
  · simp [hc]

/-- C10 witness: a telemetry message that fires the zero-duration rule
yields a nonempty command list and no escalation. -/
theorem c10_escalation_gating_witness :
    (handle_telemetry { rules := [fanRule 0], sensor_states := [], llm_config := {} }
        false true 100 (tempTelemetry "d" "loc" 35)).escalated = false :=
  (c10_escalation_gating
      { rules := [fanRule 0], sensor_states := [], llm_config := {} }
      false true 100 (tempTelemetry "d" "loc" 35)).1
    (by norm_num [handle_telemetry, DecisionEngine.evaluate, evalRule, fanRule,
      tempTelemetry, TelemetryMessage.get_reading, List.find?, check_condition,
      stateKey, alLookup, alInsert, DecisionEngine.should_escalate_to_llm])

end HomeHub
